import Mathlib

/-!
Shallow embedding of the `user_dirs` crate (src/src/lib.rs).

The crate resolves user-scoped directories (home, data, config, cache,
state, runtime) from the process environment and the platform identity.
We model the ambient inputs of a call as an explicit snapshot `Env`:

* `vars` models the process environment: each variable name is either
  unset (`none`), set to a Unicode string, or set to a non-Unicode value
  (in which case `std::env::var` reports `Err(VarError::NotUnicode)`).
* `os` models `std::env::consts::OS`, a string such as "macos",
  "windows" or "linux".
* `home` models the outcome of the external `home::home_dir()` lookup:
  `none` when the OS cannot determine a home directory.

`PathBuf` values are modelled freely: `Path.ofString` models
`PathBuf::from`, and `Path.join` models `PathBuf::join` with a string
component.  The crate only constructs paths with these two operations
and never inspects them, so the free representation is faithful to every
construction it performs.
-/

namespace UserDirs

/-- A value an environment variable can hold: a Unicode string, or bytes
that are not valid Unicode (for which `std::env::var` fails). -/
inductive EnvVal where
| unicode (s : String)
| nonUnicode
deriving DecidableEq

/-- Free model of `PathBuf`: `ofString` is `PathBuf::from`, `join` is
`PathBuf::join` with a string component. -/
inductive Path where
| ofString (s : String)
| join (p : Path) (s : String)
deriving DecidableEq

/-- A snapshot of the ambient inputs of one call: the environment
variables, `std::env::consts::OS`, and the outcome of the external
`home::home_dir()` lookup. -/
structure Env where
vars : String → Option EnvVal
os : String
home : Option Path

/-- `pub struct HomeDirError;` — the single error type of the crate. -/
structure HomeDirError
deriving DecidableEq

/-- `std::env::var(k)`: returns the value only when the variable is set
and its value is valid Unicode; both "unset" and "set to non-Unicode
bytes" are `Err`, which this model collapses to `none`. -/
def envVar (e : Env) (k : String) : Option String :=
match e.vars k with
| some (EnvVal.unicode s) => some s
| _ => none

/-- `home_dir()`: `home::home_dir().ok_or(HomeDirError)`. -/
def home_dir (e : Env) : Except HomeDirError Path :=
match e.home with
| some h => Except.ok h
| none => Except.error HomeDirError.mk

/-- `data_dir()` from src/src/lib.rs lines 63-78. -/
def data_dir (e : Env) : Except HomeDirError Path :=
match envVar e "XDG_DATA_HOME" with
| some xdg_data => Except.ok (Path.ofString xdg_data)
| none =>
  match home_dir e with
  | Except.error err => Except.error err
  | Except.ok home =>
    match e.os with
    | "macos" => Except.ok ((home.join "Library").join "Application Support")
    | "windows" =>
      match envVar e "APPDATA" with
      | some v => Except.ok (Path.ofString v)
      | none => Except.ok ((home.join "AppData").join "Roaming")
    | _ => Except.ok ((home.join ".local").join "share")

/-- `config_dir()` from src/src/lib.rs lines 81-95. -/
def config_dir (e : Env) : Except HomeDirError Path :=
match envVar e "XDG_CONFIG_HOME" with
| some xdg_config => Except.ok (Path.ofString xdg_config)
| none =>
  match home_dir e with
  | Except.error err => Except.error err
  | Except.ok home =>
    match e.os with
    | "macos" => Except.ok ((home.join "Library").join "Preferences")
    | "windows" =>
      match envVar e "APPDATA" with
      | some v => Except.ok (Path.ofString v)
      | none => Except.ok ((home.join "AppData").join "Roaming")
    | _ => Except.ok (home.join ".config")

/-- `cache_dir()` from src/src/lib.rs lines 98-112. -/
def cache_dir (e : Env) : Except HomeDirError Path :=
match envVar e "XDG_CACHE_HOME" with
| some xdg_cache => Except.ok (Path.ofString xdg_cache)
| none =>
  match home_dir e with
  | Except.error err => Except.error err
  | Except.ok home =>
    match e.os with
    | "macos" => Except.ok ((home.join "Library").join "Caches")
    | "windows" =>
      match envVar e "LOCALAPPDATA" with
      | some v => Except.ok (Path.ofString v)
      | none => Except.ok ((home.join "AppData").join "Local")
    | _ => Except.ok (home.join ".cache")

/-- `state_dir()` from src/src/lib.rs lines 115-128.  Note the source
evaluates `home_dir()?` before branching on the platform, so the
macOS/Windows `return Ok(None)` is only reached when the home lookup
succeeded. -/
def state_dir (e : Env) : Except HomeDirError (Option Path) :=
match envVar e "XDG_STATE_HOME" with
| some xdg_state => Except.ok (some (Path.ofString xdg_state))
| none =>
  match home_dir e with
  | Except.error err => Except.error err
  | Except.ok home =>
    match e.os with
    | "macos" => Except.ok none
    | "windows" => Except.ok none
    | _ => Except.ok (some ((home.join ".local").join "state"))

/-- `runtime_dir()` from src/src/lib.rs lines 131-136. -/
def runtime_dir (e : Env) : Option Path :=
match envVar e "XDG_RUNTIME_DIR" with
| some xdg_runtime => some (Path.ofString xdg_runtime)
| none => none

/-- The aggregate record of spec §3: fields `home`, `data`, `config`,
`cache` (always present) and `state`, `runtime` (optional). -/
structure ResolvedDirectories where
home : Path
data : Path
config : Path
cache : Path
state : Option Path
runtime : Option Path
deriving DecidableEq

/-- Modelled from the spec: the aggregate query `allDirectories()` is
described in spec §4 but is not among the source files under src/.
Per §4 it resolves `home` once unconditionally, derives all the platform
defaults from it in one branch on the platform identity, and then
applies each override variable independently. -/
def allDirectories (e : Env) : Except HomeDirError ResolvedDirectories :=
match home_dir e with
| Except.error err => Except.error err
| Except.ok home =>
  let defaults : Path × Path × Path × Option Path :=
    match e.os with
    | "macos" =>
      ((home.join "Library").join "Application Support",
       (home.join "Library").join "Preferences",
       (home.join "Library").join "Caches", none)
    | "windows" =>
      ((envVar e "APPDATA").elim ((home.join "AppData").join "Roaming") Path.ofString,
       (envVar e "APPDATA").elim ((home.join "AppData").join "Roaming") Path.ofString,
       (envVar e "LOCALAPPDATA").elim ((home.join "AppData").join "Local") Path.ofString,
       none)
    | _ =>
      ((home.join ".local").join "share", home.join ".config",
       home.join ".cache", some ((home.join ".local").join "state"))
  Except.ok
    { home := home
      data := (envVar e "XDG_DATA_HOME").elim defaults.1 Path.ofString
      config := (envVar e "XDG_CONFIG_HOME").elim defaults.2.1 Path.ofString
      cache := (envVar e "XDG_CACHE_HOME").elim defaults.2.2.1 Path.ofString
      state := match envVar e "XDG_STATE_HOME" with
        | some v => some (Path.ofString v)
        | none => defaults.2.2.2
      runtime := (envVar e "XDG_RUNTIME_DIR").map Path.ofString }

/-- Replace one environment variable in a snapshot, leaving every other
input unchanged. -/
def setVar (e : Env) (k : String) (v : Option EnvVal) : Env :=
{ e with vars := fun j => if j = k then v else e.vars j }

/-- C1: for every category, when its XDG override variable is set to a
(Unicode) value V — the empty string included — the resolving function
returns exactly V, on every platform and even when the home lookup would
fail (no hypothesis on `e.os` or `e.home` is made). -/
theorem override_used_verbatim (e : Env) (V : String) :
    (e.vars "XDG_DATA_HOME" = some (EnvVal.unicode V) →
      data_dir e = Except.ok (Path.ofString V)) ∧
    (e.vars "XDG_CONFIG_HOME" = some (EnvVal.unicode V) →
      config_dir e = Except.ok (Path.ofString V)) ∧
    (e.vars "XDG_CACHE_HOME" = some (EnvVal.unicode V) →
      cache_dir e = Except.ok (Path.ofString V)) ∧
    (e.vars "XDG_STATE_HOME" = some (EnvVal.unicode V) →
      state_dir e = Except.ok (some (Path.ofString V))) ∧
    (e.vars "XDG_RUNTIME_DIR" = some (EnvVal.unicode V) →
      runtime_dir e = some (Path.ofString V)) := by
  refine ⟨fun h => ?_, fun h => ?_, fun h => ?_, fun h => ?_, fun h => ?_⟩ <;>
    simp [data_dir, config_dir, cache_dir, state_dir, runtime_dir, envVar, h]

/-- Environment for the C1 witness: every override set to the empty
string, an unrecognized platform, and a failing home lookup. -/
def envOverridesEmpty : Env :=
{ vars := fun _ => some (EnvVal.unicode ""), os := "freebsd", home := none }

/-- C1 witness: with every override set to the empty string and no
resolvable home directory, each function returns the empty path. -/
theorem override_used_verbatim_witness :
    data_dir envOverridesEmpty = Except.ok (Path.ofString "") ∧
    config_dir envOverridesEmpty = Except.ok (Path.ofString "") ∧
    cache_dir envOverridesEmpty = Except.ok (Path.ofString "") ∧
    state_dir envOverridesEmpty = Except.ok (some (Path.ofString "")) ∧
    runtime_dir envOverridesEmpty = some (Path.ofString "") :=
  ⟨(override_used_verbatim envOverridesEmpty "").1 rfl,
   (override_used_verbatim envOverridesEmpty "").2.1 rfl,
   (override_used_verbatim envOverridesEmpty "").2.2.1 rfl,
   (override_used_verbatim envOverridesEmpty "").2.2.2.1 rfl,
   (override_used_verbatim envOverridesEmpty "").2.2.2.2 rfl⟩

/-- Environment for the C2 counterexample: macOS, `XDG_STATE_HOME`
unset, home lookup fails. -/
def envMacNoHome : Env :=
{ vars := fun _ => none, os := "macos", home := none }

/-- C2 counterexample: on macOS with `XDG_STATE_HOME` unset and an
unresolvable home directory, `state_dir` does not yield absence
(`Ok(None)`) — it fails with `HomeDirError`, because the source runs
`home_dir()?` before branching on the platform. -/
theorem state_absent_counterexample :
    envMacNoHome.vars "XDG_STATE_HOME" = none ∧ envMacNoHome.os = "macos" ∧
    state_dir envMacNoHome ≠ Except.ok none ∧
    state_dir envMacNoHome = Except.error HomeDirError.mk := by
  refine ⟨rfl, rfl, ?_, rfl⟩
  simp [state_dir, envMacNoHome, envVar, home_dir]

/-- C2 amended: with `XDG_STATE_HOME` unset, `state_dir` yields
`Ok(None)` on macOS and Windows and `Ok(Some(home/.local/state))` on
the POSIX-default branch provided the home lookup succeeds; when the
home lookup fails it returns `HomeDirError` on every platform. -/
theorem state_dir_no_override (e : Env)
    (hs : envVar e "XDG_STATE_HOME" = none) :
    (∀ h, e.home = some h →
      (((e.os = "macos" ∨ e.os = "windows") → state_dir e = Except.ok none) ∧
       ((e.os ≠ "macos" ∧ e.os ≠ "windows") →
         state_dir e = Except.ok (some ((h.join ".local").join "state"))))) ∧
    (e.home = none → state_dir e = Except.error HomeDirError.mk) := by
  constructor
  · intro h hh
    constructor
    · rintro (hos | hos) <;> simp [state_dir, hs, home_dir, hh, hos]
    · rintro ⟨h1, h2⟩
      simp only [state_dir, hs, home_dir, hh]
  · intro hh
    simp [state_dir, hs, home_dir, hh]

/-- Environment for the C2 witness: macOS with a resolvable home and no
variables set. -/
def envMacHome : Env :=
{ vars := fun _ => none, os := "macos", home := some (Path.ofString "/Users/Leah") }

/-- C2 witness: on macOS with a home directory and `XDG_STATE_HOME`
unset, `state_dir` yields `Ok(None)`. -/
theorem state_dir_no_override_witness :
    state_dir envMacHome = Except.ok none :=
  ((state_dir_no_override envMacHome rfl).1 (Path.ofString "/Users/Leah") rfl).1
    (Or.inl rfl)

/-- C3: each of `data_dir`, `config_dir`, `cache_dir` fails precisely
when its override variable is unset (as seen by `std::env::var`) and
the home lookup fails; `HomeDirError` (whose type has the single value
`HomeDirError.mk`) is the only error ever returned, as the result types
of all six functions show. -/
theorem per_field_error_iff (e : Env) :
    (data_dir e = Except.error HomeDirError.mk ↔
      envVar e "XDG_DATA_HOME" = none ∧ e.home = none) ∧
    (config_dir e = Except.error HomeDirError.mk ↔
      envVar e "XDG_CONFIG_HOME" = none ∧ e.home = none) ∧
    (cache_dir e = Except.error HomeDirError.mk ↔
      envVar e "XDG_CACHE_HOME" = none ∧ e.home = none) := by
  refine ⟨⟨fun hrun => ?_, fun hvh => ?_⟩, ⟨fun hrun => ?_, fun hvh => ?_⟩,
    ⟨fun hrun => ?_, fun hvh => ?_⟩⟩
  · rcases hv : envVar e "XDG_DATA_HOME" with _ | v
    · rcases hh : e.home with _ | h
      · exact ⟨rfl, rfl⟩
      · exfalso
        revert hrun
        simp only [data_dir, hv, home_dir, hh]
        split <;> (try split) <;> simp
    · exfalso
      revert hrun
      simp [data_dir, hv]
  · obtain ⟨hv, hh⟩ := hvh
    simp [data_dir, hv, home_dir, hh]
  · rcases hv : envVar e "XDG_CONFIG_HOME" with _ | v
    · rcases hh : e.home with _ | h
      · exact ⟨rfl, rfl⟩
      · exfalso
        revert hrun
        simp only [config_dir, hv, home_dir, hh]
        split <;> (try split) <;> simp
    · exfalso
      revert hrun
      simp [config_dir, hv]
  · obtain ⟨hv, hh⟩ := hvh
    simp [config_dir, hv, home_dir, hh]
  · rcases hv : envVar e "XDG_CACHE_HOME" with _ | v
    · rcases hh : e.home with _ | h
      · exact ⟨rfl, rfl⟩
      · exfalso
        revert hrun
        simp only [cache_dir, hv, home_dir, hh]
        split <;> (try split) <;> simp
    · exfalso
      revert hrun
      simp [cache_dir, hv]
  · obtain ⟨hv, hh⟩ := hvh
    simp [cache_dir, hv, home_dir, hh]

/-- C4: the aggregate query resolves home unconditionally first: it
fails with the home-lookup error whenever home cannot be resolved, with
no condition whatsoever on the override variables, and on success it
returns the full record with `home` set to the resolved home. -/
theorem allDirectories_home_unconditional (e : Env) :
    (e.home = none → allDirectories e = Except.error HomeDirError.mk) ∧
    (∀ h, e.home = some h → ∃ r : ResolvedDirectories,
      allDirectories e = Except.ok r ∧ r.home = h) := by
  constructor
  · intro hh
    simp [allDirectories, home_dir, hh]
  · intro h hh
    simp only [allDirectories, home_dir, hh]
    exact ⟨_, rfl, rfl⟩

/-- Environment for the C4 witness: every override variable set, home
lookup fails. -/
def envAllSetNoHome : Env :=
{ vars := fun _ => some (EnvVal.unicode "/tmp/x"), os := "linux", home := none }

/-- C4 witness: even with every override variable set, the aggregate
query fails when the home lookup fails. -/
theorem allDirectories_home_unconditional_witness :
    allDirectories envAllSetNoHome = Except.error HomeDirError.mk :=
  (allDirectories_home_unconditional envAllSetNoHome).1 rfl

/-- C5: `runtime_dir` returns the override value when `XDG_RUNTIME_DIR`
is set, absence when it is unset, on every platform; it has no error
path (its result type is `Option Path`, not `Except`) and never consults
the home lookup: its result is invariant under replacing the platform
and the home outcome. -/
theorem runtime_dir_override_only (e : Env) :
    (envVar e "XDG_RUNTIME_DIR" = none → runtime_dir e = none) ∧
    (∀ V, envVar e "XDG_RUNTIME_DIR" = some V →
      runtime_dir e = some (Path.ofString V)) ∧
    (∀ os h, runtime_dir { vars := e.vars, os := os, home := h } = runtime_dir e) := by
  refine ⟨fun h => ?_, fun V h => ?_, fun os h => rfl⟩ <;> simp [runtime_dir, h]

/-- Environment for the C5 witness: nothing set, failing home lookup. -/
def envRuntimeUnset : Env :=
{ vars := fun _ => none, os := "windows", home := none }

/-- C5 witness: with `XDG_RUNTIME_DIR` unset, `runtime_dir` yields
absence. -/
theorem runtime_dir_override_only_witness :
    runtime_dir envRuntimeUnset = none :=
  (runtime_dir_override_only envRuntimeUnset).1 rfl

/-- C6: on Windows with no XDG override and a resolvable home,
`data_dir` and `config_dir` return the value of `APPDATA` when set and
`home/AppData/Roaming` otherwise, and `cache_dir` returns the value of
`LOCALAPPDATA` when set and `home/AppData/Local` otherwise. -/
theorem windows_appdata_fallback (e : Env) (h : Path)
    (hos : e.os = "windows") (hhome : e.home = some h)
    (hd : envVar e "XDG_DATA_HOME" = none)
    (hc : envVar e "XDG_CONFIG_HOME" = none)
    (hca : envVar e "XDG_CACHE_HOME" = none) :
    (∀ a, envVar e "APPDATA" = some a →
      data_dir e = Except.ok (Path.ofString a) ∧
      config_dir e = Except.ok (Path.ofString a)) ∧
    (envVar e "APPDATA" = none →
      data_dir e = Except.ok ((h.join "AppData").join "Roaming") ∧
      config_dir e = Except.ok ((h.join "AppData").join "Roaming")) ∧
    (∀ l, envVar e "LOCALAPPDATA" = some l →
      cache_dir e = Except.ok (Path.ofString l)) ∧
    (envVar e "LOCALAPPDATA" = none →
      cache_dir e = Except.ok ((h.join "AppData").join "Local")) := by
  refine ⟨fun a ha => ⟨?_, ?_⟩, fun ha => ⟨?_, ?_⟩, fun l hl => ?_, fun hl => ?_⟩
  · simp [data_dir, hd, home_dir, hhome, hos, ha]
  · simp [config_dir, hc, home_dir, hhome, hos, ha]
  · simp [data_dir, hd, home_dir, hhome, hos, ha]
  · simp [config_dir, hc, home_dir, hhome, hos, ha]
  · simp [cache_dir, hca, home_dir, hhome, hos, hl]
  · simp [cache_dir, hca, home_dir, hhome, hos, hl]

/-- Environment for the C6 witness with `APPDATA` and `LOCALAPPDATA`
set. -/
def envWinAppdata : Env :=
{ vars := fun k =>
    if k = "APPDATA" then some (EnvVal.unicode "C:\\Roam")
    else if k = "LOCALAPPDATA" then some (EnvVal.unicode "C:\\Loc")
    else none,
  os := "windows", home := some (Path.ofString "C:\\Users\\Leah") }

/-- Environment for the C6 witness with `APPDATA` and `LOCALAPPDATA`
unset. -/
def envWinNoAppdata : Env :=
{ vars := fun _ => none, os := "windows",
  home := some (Path.ofString "C:\\Users\\Leah") }

/-- C6 witness: both Windows fallback behaviours at concrete
environments. -/
theorem windows_appdata_fallback_witness :
    (data_dir envWinAppdata = Except.ok (Path.ofString "C:\\Roam") ∧
     config_dir envWinAppdata = Except.ok (Path.ofString "C:\\Roam")) ∧
    cache_dir envWinAppdata = Except.ok (Path.ofString "C:\\Loc") ∧
    data_dir envWinNoAppdata =
      Except.ok (((Path.ofString "C:\\Users\\Leah").join "AppData").join "Roaming") ∧
    cache_dir envWinNoAppdata =
      Except.ok (((Path.ofString "C:\\Users\\Leah").join "AppData").join "Local") :=
  ⟨(windows_appdata_fallback envWinAppdata (Path.ofString "C:\\Users\\Leah")
      rfl rfl (by decide) (by decide) (by decide)).1 "C:\\Roam" (by decide),
   (windows_appdata_fallback envWinAppdata (Path.ofString "C:\\Users\\Leah")
      rfl rfl (by decide) (by decide) (by decide)).2.2.1 "C:\\Loc" (by decide),
   ((windows_appdata_fallback envWinNoAppdata (Path.ofString "C:\\Users\\Leah")
      rfl rfl (by decide) (by decide) (by decide)).2.1 (by decide)).1,
   (windows_appdata_fallback envWinNoAppdata (Path.ofString "C:\\Users\\Leah")
      rfl rfl (by decide) (by decide) (by decide)).2.2.2 (by decide)⟩

/-- C7: with no overrides and a resolvable home, each result is home
joined with the documented fixed suffix: `.local/share`, `.config`,
`.cache`, `.local/state` on the POSIX-default branch, and
`Library/Application Support`, `Library/Preferences`, `Library/Caches`
on macOS. -/
theorem platform_default_join (e : Env) (h : Path)
    (hhome : e.home = some h)
    (hd : envVar e "XDG_DATA_HOME" = none)
    (hc : envVar e "XDG_CONFIG_HOME" = none)
    (hca : envVar e "XDG_CACHE_HOME" = none)
    (hs : envVar e "XDG_STATE_HOME" = none) :
    ((e.os ≠ "macos" ∧ e.os ≠ "windows") →
      data_dir e = Except.ok ((h.join ".local").join "share") ∧
      config_dir e = Except.ok (h.join ".config") ∧
      cache_dir e = Except.ok (h.join ".cache") ∧
      state_dir e = Except.ok (some ((h.join ".local").join "state"))) ∧
    (e.os = "macos" →
      data_dir e = Except.ok ((h.join "Library").join "Application Support") ∧
      config_dir e = Except.ok ((h.join "Library").join "Preferences") ∧
      cache_dir e = Except.ok ((h.join "Library").join "Caches")) := by
  constructor
  · rintro ⟨h1, h2⟩
    refine ⟨?_, ?_, ?_, ?_⟩
    · simp only [data_dir, hd, home_dir, hhome]
    · simp only [config_dir, hc, home_dir, hhome]
    · simp only [cache_dir, hca, home_dir, hhome]
    · simp only [state_dir, hs, home_dir, hhome]
  · intro hos
    refine ⟨?_, ?_, ?_⟩
    · simp [data_dir, hd, home_dir, hhome, hos]
    · simp [config_dir, hc, home_dir, hhome, hos]
    · simp [cache_dir, hca, home_dir, hhome, hos]

/-- Environment for the C7 witness: POSIX-default platform, no
variables set, resolvable home. -/
def envLinuxHome : Env :=
{ vars := fun _ => none, os := "linux", home := some (Path.ofString "/home/leah") }

/-- Environment for the C7 witness: macOS, no variables set, resolvable
home. -/
def envMacHomeDefaults : Env :=
{ vars := fun _ => none, os := "macos", home := some (Path.ofString "/Users/Leah") }

/-- C7 witness: the fixed-suffix defaults at a concrete POSIX-default
environment and a concrete macOS environment. -/
theorem platform_default_join_witness :
    (data_dir envLinuxHome =
      Except.ok (((Path.ofString "/home/leah").join ".local").join "share") ∧
     config_dir envLinuxHome = Except.ok ((Path.ofString "/home/leah").join ".config") ∧
     cache_dir envLinuxHome = Except.ok ((Path.ofString "/home/leah").join ".cache") ∧
     state_dir envLinuxHome =
      Except.ok (some (((Path.ofString "/home/leah").join ".local").join "state"))) ∧
    (data_dir envMacHomeDefaults =
      Except.ok (((Path.ofString "/Users/Leah").join "Library").join "Application Support") ∧
     config_dir envMacHomeDefaults =
      Except.ok (((Path.ofString "/Users/Leah").join "Library").join "Preferences") ∧
     cache_dir envMacHomeDefaults =
      Except.ok (((Path.ofString "/Users/Leah").join "Library").join "Caches")) :=
  ⟨(platform_default_join envLinuxHome (Path.ofString "/home/leah")
      rfl rfl rfl rfl rfl).1 ⟨by decide, by decide⟩,
   (platform_default_join envMacHomeDefaults (Path.ofString "/Users/Leah")
      rfl rfl rfl rfl rfl).2 rfl⟩

/-- C8: every resolving function is deterministic in the snapshot: two
calls seeing identical environment-variable contents, platform identity
and home-lookup outcome produce identical results — the functions read
nothing else and keep no hidden state. -/
theorem deterministic_in_snapshot (e1 e2 : Env)
    (hv : ∀ k, e1.vars k = e2.vars k) (hos : e1.os = e2.os)
    (hh : e1.home = e2.home) :
    home_dir e1 = home_dir e2 ∧ data_dir e1 = data_dir e2 ∧
    config_dir e1 = config_dir e2 ∧ cache_dir e1 = cache_dir e2 ∧
    state_dir e1 = state_dir e2 ∧ runtime_dir e1 = runtime_dir e2 := by
  have he : e1 = e2 := by
    cases e1 with
    | mk v1 o1 h1 =>
      cases e2 with
      | mk v2 o2 h2 =>
        simp only [Env.mk.injEq]
        exact ⟨funext hv, hos, hh⟩
  rw [he]
  exact ⟨rfl, rfl, rfl, rfl, rfl, rfl⟩

/-- First snapshot for the C8 witness. -/
def envDetA : Env :=
{ vars := fun _ => none, os := "linux", home := some (Path.ofString "/home/leah") }

/-- Second snapshot for the C8 witness: written differently but with
identical contents. -/
def envDetB : Env :=
{ vars := fun k => if k = "UNRELATED" then none else none, os := "linux",
  home := some (Path.ofString "/home/leah") }

/-- C8 witness: two syntactically different snapshots with identical
contents give identical results for every function. -/
theorem deterministic_in_snapshot_witness :
    home_dir envDetA = home_dir envDetB ∧ data_dir envDetA = data_dir envDetB ∧
    config_dir envDetA = config_dir envDetB ∧ cache_dir envDetA = cache_dir envDetB ∧
    state_dir envDetA = state_dir envDetB ∧ runtime_dir envDetA = runtime_dir envDetB :=
  deterministic_in_snapshot envDetA envDetB
    (fun k => by simp [envDetA, envDetB]) rfl rfl

/-- C9: on Windows the home directory is resolved before `APPDATA` or
`LOCALAPPDATA` is consulted: with the XDG override unset and a failing
home lookup, `data_dir`, `config_dir` and `cache_dir` return
`HomeDirError` — with no assumption on `APPDATA` or `LOCALAPPDATA`, so
in particular even when those variables are set. -/
theorem windows_home_before_appdata (e : Env)
    (_hos : e.os = "windows") (hhome : e.home = none) :
    (envVar e "XDG_DATA_HOME" = none →
      data_dir e = Except.error HomeDirError.mk) ∧
    (envVar e "XDG_CONFIG_HOME" = none →
      config_dir e = Except.error HomeDirError.mk) ∧
    (envVar e "XDG_CACHE_HOME" = none →
      cache_dir e = Except.error HomeDirError.mk) := by
  refine ⟨fun hd => ?_, fun hc => ?_, fun hca => ?_⟩
  · simp [data_dir, hd, home_dir, hhome]
  · simp [config_dir, hc, home_dir, hhome]
  · simp [cache_dir, hca, home_dir, hhome]

/-- Environment for the C9 witness: Windows, failing home lookup, with
`APPDATA` and `LOCALAPPDATA` both set. -/
def envWinNoHome : Env :=
{ vars := fun k =>
    if k = "APPDATA" then some (EnvVal.unicode "C:\\Roam")
    else if k = "LOCALAPPDATA" then some (EnvVal.unicode "C:\\Loc")
    else none,
  os := "windows", home := none }

/-- C9 witness: on Windows with `APPDATA` and `LOCALAPPDATA` set but no
home directory, all three functions fail. -/
theorem windows_home_before_appdata_witness :
    envVar envWinNoHome "APPDATA" = some "C:\\Roam" ∧
    envVar envWinNoHome "LOCALAPPDATA" = some "C:\\Loc" ∧
    data_dir envWinNoHome = Except.error HomeDirError.mk ∧
    config_dir envWinNoHome = Except.error HomeDirError.mk ∧
    cache_dir envWinNoHome = Except.error HomeDirError.mk :=
  ⟨by decide, by decide,
   (windows_home_before_appdata envWinNoHome rfl rfl).1 (by decide),
   (windows_home_before_appdata envWinNoHome rfl rfl).2.1 (by decide),
   (windows_home_before_appdata envWinNoHome rfl rfl).2.2 (by decide)⟩

/-- C10: a variable that is present but not valid Unicode is invisible
to `std::env::var`, so it behaves exactly as if unset: `data_dir` gives
the same result as with the variable removed, and `runtime_dir` yields
absence. -/
theorem non_unicode_value_treated_as_unset (e : Env) :
    (e.vars "XDG_DATA_HOME" = some EnvVal.nonUnicode →
      envVar e "XDG_DATA_HOME" = none ∧
      data_dir e = data_dir (setVar e "XDG_DATA_HOME" none)) ∧
    (e.vars "XDG_RUNTIME_DIR" = some EnvVal.nonUnicode →
      envVar e "XDG_RUNTIME_DIR" = none ∧ runtime_dir e = none) := by
  constructor
  · intro h
    have h1 : envVar e "XDG_DATA_HOME" = none := by simp [envVar, h]
    have h2 : envVar (setVar e "XDG_DATA_HOME" none) "XDG_DATA_HOME" = none := by
      simp [envVar, setVar]
    have h3 : envVar (setVar e "XDG_DATA_HOME" none) "APPDATA" =
        envVar e "APPDATA" := by
      simp [envVar, setVar]
    have h4 : (setVar e "XDG_DATA_HOME" none).os = e.os := rfl
    have h5 : home_dir (setVar e "XDG_DATA_HOME" none) = home_dir e := rfl
    refine ⟨h1, ?_⟩
    simp only [data_dir, h1, h2, h3, h4, h5]
  · intro h
    have h1 : envVar e "XDG_RUNTIME_DIR" = none := by simp [envVar, h]
    exact ⟨h1, by simp [runtime_dir, h1]⟩

/-- Environment for the C10 witness: `XDG_DATA_HOME` and
`XDG_RUNTIME_DIR` set to non-Unicode values on the POSIX-default
branch. -/
def envNonUnicode : Env :=
{ vars := fun k =>
    if k = "XDG_DATA_HOME" then some EnvVal.nonUnicode
    else if k = "XDG_RUNTIME_DIR" then some EnvVal.nonUnicode
    else none,
  os := "linux", home := some (Path.ofString "/home/leah") }

/-- C10 witness: with non-Unicode override values, `std::env::var` sees
nothing, `data_dir` equals the unset case (the platform default), and
`runtime_dir` yields absence. -/
theorem non_unicode_value_treated_as_unset_witness :
    (envVar envNonUnicode "XDG_DATA_HOME" = none ∧
      data_dir envNonUnicode = data_dir (setVar envNonUnicode "XDG_DATA_HOME" none)) ∧
    (envVar envNonUnicode "XDG_RUNTIME_DIR" = none ∧
      runtime_dir envNonUnicode = none) :=
  ⟨(non_unicode_value_treated_as_unset envNonUnicode).1 (by decide),
   (non_unicode_value_treated_as_unset envNonUnicode).2 (by decide)⟩

end UserDirs
